import Mathlib

/-!
Verification of the gsc_wrapper query pipeline.

Shallow embedding of `gscwrapper/query.py` and `gscwrapper/query_bq.py`:
the REST pagination loop (`Query.get`), the `Report` analytics operations
(`ctr_yield_curve`, `abcd`, `winners_losers`, `filter`, `url_to_df`,
`update_urls`) and the BigQuery engine (`Query_BQ.filter`,
`Report_BQ.define_table_to_use`, `Report_BQ.define_estimate_cost`, the
cost-estimation gate).

Numeric conventions: Python/pandas floats are idealised as `Rat`;
`round` is modelled as round-half-to-even (Python's rounding mode for
builtin `round` and numpy's `np.round`).  NaN cells (which arise from a
0/0 in pandas) are modelled as `none` of an `Option` type where they can
occur.  Methods that mutate `self` are modelled as state transformers
returning both the method's result and the state of `self` after the
call.
-/

namespace GscWrapper

/-- Round-half-to-even on rationals: Python's builtin `round(x)` /
`np.round`, idealised over exact rationals. -/
def roundHalfEven (q : Rat) : Int :=
  if q - ⌊q⌋ < 1/2 then ⌊q⌋
  else if 1/2 < q - ⌊q⌋ then ⌊q⌋ + 1
  else if ⌊q⌋ % 2 = 0 then ⌊q⌋ else ⌊q⌋ + 1

/-- Python `round(x, 2)` idealised over rationals. -/
def round2 (q : Rat) : Rat := (roundHalfEven (q * 100) : Rat) / 100

/-- Python `round(x, 4)` idealised over rationals. -/
def round4 (q : Rat) : Rat := (roundHalfEven (q * 10000) : Rat) / 10000

/-! ## REST pagination engine: `Query.get` (query.py lines 219-294)

The backend is modelled as the list of chunks (`chunk.get('rows', [])`)
that the successive `service.searchanalytics().query(...)` calls return;
rows are kept abstract.  Each loop iteration first sleeps one second
(the rate-limit courtesy delay) and then issues one page request, which
we record as a trace of events.  `getLoop` returns `none` when the loop
would ask for a page beyond the modelled backend responses. -/

/-- The fixed per-call page cap used by the loop's short-page test
(`len(chunk.get('rows', []))<25000`). -/
def PAGE_SIZE : Nat := 25000

/-- One observable step of the pagination loop: the `time.sleep(1)`
delay, or a page request at a given `startRow` offset. -/
inductive PageEvent where
  | sleep : PageEvent
  | request : Nat → PageEvent
deriving DecidableEq

/-- The loop's limit test `total_rows >= limit`, where the limit defaults
to `float('inf')` (`none`) when `meta['limit']` was never set. -/
def limitReached (limit : Option Nat) (total : Nat) : Bool :=
  match limit with
  | some l => l ≤ total
  | none => false

/-- The `while is_complete == False and limit_achieved == False` loop of
`Query.get`: consume pages, accumulate rows and events, stop after the
first page that is shorter than 25,000 rows or that brings the
accumulated row count up to the limit.  Returns the consumed chunks and
the event trace, or `none` if the modelled backend runs out of pages
while the loop still wants more. -/
def getLoop (limit : Option Nat) :
    List (List α) → Nat → Nat → Option (List (List α) × List PageEvent)
  | [], _, _ => none
  | chunk :: rest, startRow, total =>
    let total2 := total + chunk.length
    let evs := [PageEvent.sleep, PageEvent.request startRow]
    if chunk.length < PAGE_SIZE || limitReached limit total2 then
      some ([chunk], evs)
    else
      match getLoop limit rest (startRow + PAGE_SIZE) total2 with
      | none => none
      | some (cs, es) => some (chunk :: cs, evs ++ es)

/-- `df.head(limit)` applied only when a limit was set
(`if limit != float('inf')`). -/
def applyLimit (limit : Option Nat) (rows : List α) : List α :=
  match limit with
  | some l => rows.take l
  | none => rows

/-- `Query.get`: run the pagination loop from `startRow = 0`, flatten the
accumulated chunks, raise (model: `Except.error`) when zero rows were
returned, otherwise truncate to the limit.  The second component of the
`ok` result is the trace of sleeps and page requests. -/
def get (limit : Option Nat) (pages : List (List α)) :
    Option (Except String (List α × List PageEvent)) :=
  match getLoop limit pages 0 0 with
  | none => none
  | some (cs, evs) =>
    let flattened := cs.flatten
    if flattened.length = 0 then
      some (.error "No data available. Check your request and ensure you\x27re using the right dates and filters.")
    else
      some (.ok (applyLimit limit flattened, evs))

/-- Total number of rows in a list of chunks. -/
def sumLen (cs : List (List α)) : Nat := (cs.map List.length).sum

/-- Number of page requests in an event trace. -/
def countRequests (evs : List PageEvent) : Nat :=
  (evs.filter fun e => match e with | .request _ => true | .sleep => false).length

/-- Rows of a successful `get` run (empty list otherwise). -/
def okRows (r : Option (Except String (List α × List PageEvent))) : List α :=
  match r with
  | some (.ok p) => p.1
  | _ => []

/-- Event trace of a successful `get` run (empty list otherwise). -/
def okEvents (r : Option (Except String (List α × List PageEvent))) : List PageEvent :=
  match r with
  | some (.ok p) => p.2
  | _ => []

/-- Whether a `get` run raised the empty-result `ValueError`. -/
def isError (r : Option (Except String β)) : Bool :=
  match r with
  | some (.error _) => true
  | _ => false

/-! ## The `Report` model (query.py lines 297-336)

A pandas DataFrame is modelled as a column-name list plus rows of
optional string cells (`none` models a NaN/None cell).  Metric cells
also appear here as strings; the analytics operations whose numeric
behaviour is verified (`ctr_yield_curve`, `abcd`) are modelled further
down on typed row lists instead. -/

/-- The fixed dimension vocabulary `DIMENSIONS` of query.py. -/
def DIMENSIONS : List String :=
  ["country", "device", "page", "query", "searchAppearance", "date"]

/-- The fixed operator vocabulary `OPERATORS` of query.py / query_bq.py. -/
def OPERATORS : List String :=
  ["equals", "notEquals", "contains", "notContains", "includingRegex", "excludingRegex"]

/-- A pandas DataFrame: named columns and rows of optional cells. -/
structure Table where
  cols : List String
  rows : List (List (Option String))
deriving DecidableEq

/-- Index of a column in a table, `none` when absent. -/
def Table.colIdx (t : Table) (c : String) : Option Nat :=
  t.cols.findIdx? (· = c)

/-- A materialized report: the webproperty, the dimension/metric
classification computed by `Report.__init__`, the inferred date span and
the data table. -/
structure Report where
  webproperty : String
  dimensions : List String
  metrics : List String
  from_date : Option String
  to_date : Option String
  df : Table
deriving DecidableEq

/-- Minimum of a list of ISO date strings (lexicographic = chronological),
modelling `df.date.min()`. -/
def stringMin (l : List String) : Option String :=
  l.foldl (fun acc s =>
    match acc with
    | none => some s
    | some a => some (if s < a then s else a)) none

/-- Maximum of a list of ISO date strings, modelling `df.date.max()`. -/
def stringMax (l : List String) : Option String :=
  l.foldl (fun acc s =>
    match acc with
    | none => some s
    | some a => some (if a < s then s else a)) none

/-- The non-null values of a column. -/
def Table.colValues (t : Table) (c : String) : List String :=
  match t.colIdx c with
  | none => []
  | some i => t.rows.filterMap (fun r => r.getD i none)

/-- `Report.__init__`: classify columns into dimensions (members of the
fixed vocabulary) and metrics (everything else), and infer the date span
from the `date` column when present. -/
def mkReport (df : Table) (webproperty : String) : Report :=
  let dims := df.cols.filter (· ∈ DIMENSIONS)
  { webproperty := webproperty
    dimensions := dims
    metrics := df.cols.filter (· ∉ DIMENSIONS)
    from_date := if "date" ∈ dims then stringMin (df.colValues "date") else none
    to_date := if "date" ∈ dims then stringMax (df.colValues "date") else none
    df := df }

/-- `Report.filter`: deep-copy `self`, filter the copy's DataFrame with
the pandas query (modelled as a row predicate), and return the copy.
The first component is the returned Report, the second the state of
`self` after the call — unchanged, because only the deep copy is
touched. -/
def Report.filter (r : Report) (pred : List (Option String) → Bool) :
    Report × Report :=
  ({ r with df := { cols := r.df.cols, rows := r.df.rows.filter pred } }, r)

/-- Python `s.split(c)` for a one-character separator, over the string's
character list (same semantics as `String.splitOn`, but structurally
recursive so that concrete instances evaluate). -/
def splitOnChar (c : Char) : List Char → List (List Char)
  | [] => [[]]
  | x :: xs =>
    if x = c then [] :: splitOnChar c xs
    else
      match splitOnChar c xs with
      | [] => [[x]]
      | y :: ys => (x :: y) :: ys

/-- Python `s.split(sep)` for a three-character separator such as
`'://'` (which cannot overlap itself). -/
def splitOnSep3 (a b c : Char) : List Char → List (List Char)
  | [] => [[]]
  | [x] => [[x]]
  | [x, y] => [[x, y]]
  | x :: y :: z :: rest =>
    if x = a ∧ y = b ∧ z = c then [] :: splitOnSep3 a b c rest
    else
      match splitOnSep3 a b c (y :: z :: rest) with
      | [] => [[x]]
      | w :: ws => (x :: w) :: ws

/-- Python `'/'.join(segments)`. -/
def joinSlash : List (List Char) → List Char
  | [] => []
  | [s] => s
  | s :: rest => s ++ '/' :: joinSlash rest

/-- Python `x.split('://')[0]` (the URL scheme). -/
def urlScheme (x : String) : String :=
  ⟨(splitOnSep3 ':' '/' '/' x.data).headD []⟩

/-- Python `x.split('://')[1].split('/')[0]` (the netloc).  The source
indexes `[1]` unconditionally, so it raises on inputs without the
separator; the model is used only on inputs that contain it. -/
def urlNetloc (x : String) : String :=
  ⟨(splitOnChar '/' ((splitOnSep3 ':' '/' '/' x.data).getD 1 [])).headD []⟩

/-- Python `'/'+'/'.join(x.split('/')[3:])` (the path). -/
def urlPath (x : String) : String :=
  ⟨'/' :: joinSlash ((splitOnChar '/' x.data).drop 3)⟩

/-- Python `x.split('/')[-1]` (the last folder). -/
def urlLastFolder (x : String) : String :=
  ⟨(splitOnChar '/' x.data).getLastD []⟩

/-- The `page` value of a row as a plain string (the source calls string
methods on it, so it is assumed non-null there). -/
def pageCell (row : List (Option String)) (i : Nat) : String :=
  (row.getD i none).getD ""

/-- The DataFrame transformation of `Report.url_to_df`: append the
scheme/netloc/path/last_folder columns and one `folder_j` column per
slash-separated component from index 3 up to the longest split among
the rows (`str.split("/", expand=True).iloc[:,3:]`, renamed to
`folder_1`, `folder_2`, ...); rows with fewer components get `None`
cells. -/
def Table.url_to_df (t : Table) : Table :=
  let i := (t.colIdx "page").getD 0
  let nfold :=
    (t.rows.map (fun r => (splitOnChar '/' (pageCell r i).data).length)).foldl max 0 - 3
  { cols := t.cols ++ ["scheme", "netloc", "path", "last_folder"] ++
      (List.range nfold).map (fun j => "folder_" ++ toString (j + 1))
    rows := t.rows.map fun r =>
      let x := pageCell r i
      let parts := splitOnChar '/' x.data
      r ++ [some (urlScheme x), some (urlNetloc x), some (urlPath x),
            some (urlLastFolder x)] ++
        (List.range nfold).map (fun j =>
          ((parts.drop 3)[j]?).map (fun l => (⟨l⟩ : String))) }

/-- `Report.url_to_df`: raises when the report has no `page` dimension;
otherwise assigns the expanded DataFrame to `self.df` and returns
`self`.   The pair is (returned Report, state of `self` after the call):
both are the same mutated object. -/
def Report.url_to_df (r : Report) : Except String (Report × Report) :=
  if "page" ∈ r.dimensions then
    let r2 := { r with df := r.df.url_to_df }
    .ok (r2, r2)
  else
    .error "Your report needs a page dimension to call this method."

/-- The DataFrame transformation of `Report.update_urls`: left-merge with
the redirect mapping on `page` = `from` (one output row per matching
mapping row, the row itself when nothing matches), then set
`page = to.fillna(page)`.  The merged `from`/`to` columns stay in the
result, as in the source. -/
def Table.update_urls (t : Table) (mapping : List (String × String)) : Table :=
  let i := (t.colIdx "page").getD 0
  { cols := t.cols ++ ["from", "to"]
    rows := t.rows.flatMap fun r =>
      let pv := r.getD i none
      let hits := mapping.filter (fun m => some m.1 = pv)
      if hits.isEmpty then [r ++ [none, none]]
      else hits.map fun m => (r.set i (some m.2)) ++ [some m.1, some m.2] }

/-- `Report.update_urls`: validate that the report has a `page`
dimension (the DataFrame-type and column checks on the mapping are
enforced by the argument type here), deep-copy `self`, replace the
copy's DataFrame and return the copy.  The pair is (returned Report,
state of `self` after the call) — `self` is unchanged. -/
def Report.update_urls (r : Report) (mapping : List (String × String)) :
    Except String (Report × Report) :=
  if "page" ∈ r.dimensions then
    .ok ({ r with df := r.df.update_urls mapping }, r)
  else
    .error "Your report needs a page dimension to call this method."

/-- The state of `self` after a `url_to_df` call (`none` when the call
raised). -/
def selfAfterUrlToDf (r : Report) : Option Report :=
  match r.url_to_df with
  | .ok p => some p.2
  | .error _ => none

/-- The state of `self` after an `update_urls` call (`none` when the
call raised). -/
def selfAfterUpdateUrls (r : Report) (mapping : List (String × String)) : Option Report :=
  match r.update_urls mapping with
  | .ok p => some p.2
  | .error _ => none

/-- The Report returned by a `url_to_df` call (`none` when the call
raised). -/
def returnedUrlToDf (r : Report) : Option Report :=
  match r.url_to_df with
  | .ok p => some p.1
  | .error _ => none

/-! ## `Report.ctr_yield_curve` (query.py lines 435-479)

The report rows carry the `query` dimension and the `clicks`,
`impressions`, `position` metrics (the `date` dimension required by the
method's validation plays no part in the computation).  The pipeline is
round position → groupby(position) with sum/sum/count (pandas sorts the
group keys ascending) → keep position <= 10 → ctr =
round(clicks*100/impressions, 2). -/

/-- One input row for `ctr_yield_curve`. -/
structure CtrRow where
  query : String
  clicks : Nat
  impressions : Nat
  position : Rat
deriving DecidableEq

/-- The rounded position of a row (`round(df_['position'])`). -/
def positionBucket (r : CtrRow) : Int := roundHalfEven r.position

/-- The distinct rounded positions, ascending (pandas `groupby` sorts
its keys). -/
def sortedBuckets (rows : List CtrRow) : List Int :=
  ((rows.map positionBucket).dedup).insertionSort (· ≤ ·)

/-- Summed clicks of the rows in one position bucket. -/
def groupClicks (rows : List CtrRow) (k : Int) : Nat :=
  ((rows.filter (fun r => positionBucket r = k)).map CtrRow.clicks).sum

/-- Summed impressions of the rows in one position bucket. -/
def groupImpressions (rows : List CtrRow) (k : Int) : Nat :=
  ((rows.filter (fun r => positionBucket r = k)).map CtrRow.impressions).sum

/-- Number of rows (non-null `query` count) in one position bucket. -/
def groupCount (rows : List CtrRow) (k : Int) : Nat :=
  (rows.filter (fun r => positionBucket r = k)).length

/-- The groupby-aggregate step: per ascending rounded position, the
(clicks, impressions, kw_count) totals. -/
def perPosTotals (rows : List CtrRow) : List (Int × Nat × Nat × Nat) :=
  (sortedBuckets rows).map fun k =>
    (k, groupClicks rows k, groupImpressions rows k, groupCount rows k)

/-- One output row of the CTR yield curve. -/
structure CtrCurveRow where
  position : Int
  ctr : Rat
  clicks : Nat
  impressions : Nat
  kw_count : Nat
deriving DecidableEq

/-- `Report.ctr_yield_curve`: aggregate per rounded position, keep
positions <= 10, add `ctr = round(clicks*100/impressions, 2)`. -/
def ctr_yield_curve (rows : List CtrRow) : List CtrCurveRow :=
  ((perPosTotals rows).filter (fun t => t.1 ≤ 10)).map fun t =>
    { position := t.1
      ctr := round2 ((t.2.1 : Rat) * 100 / (t.2.2.1 : Rat))
      clicks := t.2.1
      impressions := t.2.2.1
      kw_count := t.2.2.2 }

/-! ## `Report.abcd` (query.py lines 1399-1443)

Rows are (entity, metric value) pairs; the entity stands for the
non-metric columns of the row. -/

/-- The `case_when` band list of `abcd`: `between(0, 50, 'left')` ↦ A,
`between(50, 75, 'left')` ↦ B, `between(75, 90, 'left')` ↦ C,
`between(90, 100, 'both')` ↦ D.  `none` models the `case_when` fallback,
which leaves the original (numeric or NaN) `metric_cumsum` cell in
place instead of a band letter. -/
def abcdLabel (c : Rat) : Option String :=
  if 0 ≤ c ∧ c < 50 then some "A"
  else if 50 ≤ c ∧ c < 75 then some "B"
  else if 75 ≤ c ∧ c < 90 then some "C"
  else if 90 ≤ c ∧ c ≤ 100 then some "D"
  else none

/-- Prefix sums (`cumsum`) of a list of rationals. -/
def psums (acc : Rat) : List Rat → List Rat
  | [] => []
  | v :: vs => (acc + v) :: psums (acc + v) vs

/-- `round(100*df_[metric].cumsum()/df_[metric].sum(), 2)` per row.
When the total is 0 every cell is NaN or ±inf in pandas (0/0 or x/0),
modelled as `none`; no band test matches such a cell. -/
def metric_cumsum (vals : List Rat) : List (Option Rat) :=
  if vals.sum = 0 then (psums 0 vals).map (fun _ => none)
  else (psums 0 vals).map (fun p => some (round2 (100 * p / vals.sum)))

/-- Descending order on the metric component, as used by
`sort_values(metric, ascending=False)`. -/
def metricGE (a b : String × Rat) : Prop := b.2 ≤ a.2

instance : DecidableRel metricGE := fun a b => inferInstanceAs (Decidable (b.2 ≤ a.2))

instance : IsTotal (String × Rat) metricGE := ⟨fun a b => le_total b.2 a.2⟩

instance : IsTrans (String × Rat) metricGE := ⟨fun _ _ _ h1 h2 => le_trans h2 h1⟩

/-- `Report.abcd`: sort descending by the metric, compute the rounded
cumulative percentage of the metric total, and attach the `case_when`
band (the `metric_cumsum` helper column is dropped at the end, so the
output is entity, metric and band cell). -/
def abcd (rows : List (String × Rat)) : List (String × Rat × Option String) :=
  let sorted := rows.insertionSort metricGE
  let labels := (metric_cumsum (sorted.map Prod.snd)).map (fun oc => oc.bind abcdLabel)
  (sorted.zip labels).map fun pl => (pl.1.1, pl.1.2, pl.2)

/-! ## `Report.winners_losers` validation (query.py lines 1233-1259)

Dates are compared after `datetime.strptime(s, "%Y-%m-%d")`; a parsed
date is encoded as y*10000 + m*100 + d, which orders exactly like the
parsed datetimes.  `dfMin`/`dfMax` are the encodings of
`pd.to_datetime(self.df['date']).min()` / `.max()`. -/

/-- Python `int(...)` on a digit sequence (`none` when empty or
non-digit). -/
def digitsToNat? (l : List Char) : Option Nat :=
  if l.isEmpty then none
  else
    l.foldl (fun acc c =>
      match acc with
      | none => none
      | some n => if c.isDigit then some (n * 10 + (c.toNat - 48)) else none)
      (some 0)

/-- `datetime.strptime(s, "%Y-%m-%d")`, encoded as y*10000+m*100+d.
(The model accepts a few impossible calendar days such as Feb 31 that
strptime rejects; the difference plays no part in the claims.) -/
def parseDate (s : String) : Option Nat :=
  match splitOnChar '-' s.data with
  | [y, m, d] =>
    match digitsToNat? y, digitsToNat? m, digitsToNat? d with
    | some yn, some mn, some dn =>
      if y.length = 4 ∧ 1 ≤ mn ∧ mn ≤ 12 ∧ 1 ≤ dn ∧ dn ≤ 31 then
        some (yn * 10000 + mn * 100 + dn)
      else none
    | _, _, _ => none
  | _ => none

/-- `utils.are_dates_parsable(date)` as called by `winners_losers`: the
argument is a single string, so the helper iterates over its characters
and returns one `False` per character (no single character parses as
`%Y-%m-%d`).  `all(...)` over the two resulting lists then only tests
Python truthiness, i.e. that each list — hence each date string — is
non-empty. -/
def are_dates_parsable_chars (s : String) : List Bool :=
  s.data.map (fun _ => false)

instance {ε α : Type _} [DecidableEq ε] [DecidableEq α] : DecidableEq (Except ε α) :=
  fun a b =>
    match a, b with
    | .ok x, .ok y =>
      if h : x = y then isTrue (by rw [h]) else isFalse (fun hc => h (by injection hc))
    | .error s, .error t =>
      if h : s = t then isTrue (by rw [h]) else isFalse (fun hc => h (by injection hc))
    | .ok _, .error _ => isFalse (fun hc => Except.noConfusion hc)
    | .error _, .ok _ => isFalse (fun hc => Except.noConfusion hc)

/-- The validation sequence of `Report.winners_losers`, up to the point
where the winners/losers table is computed (`.ok ()`).  Note that the
two chronological-order checks compare `period_from[1]` (resp.
`period_to[1]`) with itself, exactly as the source does. -/
def winners_losers_checks (period_from period_to : List String)
    (dfMin dfMax : Nat) : Except String Unit :=
  if period_from.length ≠ 2 then .error "Period from must be a list of two elements."
  else if period_to.length ≠ 2 then .error "Period to must be a list of two elements."
  else if !(period_from.all (fun s => !(are_dates_parsable_chars s).isEmpty)) ||
          !(period_to.all (fun s => !(are_dates_parsable_chars s).isEmpty)) then
    .error "Periods from must be a list of two parsable dates using the YYYY-MM-DD format."
  else
    match parseDate (period_from.getD 0 ""), parseDate (period_from.getD 1 ""),
        parseDate (period_to.getD 0 ""), parseDate (period_to.getD 1 "") with
    | some pf0, some pf1, some pt0, some pt1 =>
      if pf1 < pf1 then .error "The first element of period from must be before the second element."
      else if pt1 < pt1 then .error "The first element of period from must be before the second element."
      else if pf1 > pt0 then .error "Periods must not overlap."
      else if dfMin > pf0 then .error "The data in your report is not within the period from."
      else if dfMax < pt1 then .error "The data in your report is not within the period to."
      else .ok ()
    | _, _, _, _ => .error "time data does not match format %Y-%m-%d"

/-! ## The BigQuery engine (query_bq.py)

Credentials, the BigQuery client and pandas_gbq are external I/O
collaborators; the dry-run byte count and the query execution are passed
in as abstract functions of the generated SQL text. -/

/-- `DIMENSIONS_SITE` of query_bq.py. -/
def DIMENSIONS_SITE : List String :=
  ["site_url", "query", "is_anonymized_query", "country", "search_type", "device"]

/-- `DIMENSIONS_URL` of query_bq.py.  The source is missing a comma
after `'is_amp_blue_link'`, so Python concatenates it with
`'is_job_listing'` into the single element reproduced here. -/
def DIMENSIONS_URL : List String :=
  ["url",
   "is_anonymized_discover_",
   "is_amp_top_stories",
   "is_amp_blue_linkis_job_listing",
   "is_job_details",
   "is_tpf_qa",
   "is_tpf_faq",
   "is_tpf_howto",
   "is_weblite",
   "is_action",
   "is_events_listing",
   "is_events_details",
   "is_search_appearance_android_app",
   "is_amp_story",
   "is_amp_image_result",
   "is_video",
   "is_organic_shopping",
   "is_review_snippet",
   "is_special_announcement",
   "is_recipe_feature",
   "is_recipe_rich_snippet",
   "is_subscribed_content",
   "is_page_experience",
   "is_practice_problems",
   "is_math_solvers",
   "is_translated_result",
   "is_edu_q_and_a",
   "is_product_snippets",
   "is_merchant_listings",
   "is_learning_videos"]

/-- `OPERATORS_BQ` of query_bq.py, positionally aligned with
`OPERATORS`. -/
def OPERATORS_BQ : List String :=
  ["=", "!=", "LIKE", "NOT LIKE", "REGEXP_CONTAINS", "NOT REGEXP_CONTAINS"]

/-- The builder state of `Query_BQ` that the claims depend on: the
accumulated SQL filter text and the dimensions the filter calls
recorded. -/
structure Query_BQ where
  dataset : String
  filters : String
  filters_dimensions : List String
deriving DecidableEq

/-- `Query_BQ.filter`: validate operator and dimension, append the SQL
fragment for the operator class (`=`/`!=` quote the expression,
`LIKE`/`NOT LIKE` wrap it in `%` wildcards, the regex operators splice
it into `REGEXP_CONTAINS(...)`), and record the dimension.  The three
separate `if` statements of the source are an exclusive chain because
the operator classes are disjoint. -/
def Query_BQ.filter (q : Query_BQ) (dimension expression : String)
    (operator : String) : Except String Query_BQ :=
  if operator ∉ OPERATORS then
    .error "Operator not valid. Check https://developers.google.com/webmaster-tools/v1/searchanalytics/query?hl=en#dimensionFilterGroups.filters.operator for the accepted values."
  else if dimension ∉ DIMENSIONS_SITE ∧ dimension ∉ DIMENSIONS_URL then
    .error ("Dimension not valid: " ++ dimension)
  else
    let opBQ := OPERATORS_BQ.getD (OPERATORS.indexOf operator) ""
    let fragment :=
      if operator = "equals" ∨ operator = "notEquals" then
        " AND " ++ dimension ++ " " ++ opBQ ++ " \x27" ++ expression ++ "\x27"
      else if operator = "contains" ∨ operator = "notContains" then
        " AND " ++ dimension ++ " " ++ opBQ ++ " \x27%" ++ expression ++ "%\x27"
      else
        " AND " ++ opBQ ++ "(" ++ dimension ++ ", \x27" ++ expression ++ "\x27)"
    .ok { q with filters := q.filters ++ fragment,
                 filters_dimensions := q.filters_dimensions ++ [dimension] }

/-- `Report_BQ.define_table_to_use`: the site-level table when every
recorded filter dimension belongs to the site vocabulary, the URL-level
table otherwise. -/
def define_table_to_use (filters_dimensions : List String) : String :=
  if ∀ d ∈ filters_dimensions, d ∈ DIMENSIONS_SITE then "searchdata_site_impression"
  else "searchdata_url_impression"

/-- The `Report_BQ` state: the query context handed over by
`Query_BQ.get` plus the two fields `__init__` sets — the cost-estimation
flag (defaults to `True`) and the chosen table. -/
structure Report_BQ where
  dataset : String
  startDate : String
  endDate : String
  filters : String
  filters_dimensions : List String
  estimate_cost : Bool
  table_to_use : String
deriving DecidableEq

/-- `Report_BQ.__init__`: store the query context, default
`estimate_cost` to `True` and choose the physical table from the
recorded filter dimensions. -/
def mkReport_BQ (dataset startDate endDate filters : String)
    (filters_dimensions : List String) : Report_BQ :=
  { dataset := dataset
    startDate := startDate
    endDate := endDate
    filters := filters
    filters_dimensions := filters_dimensions
    estimate_cost := true
    table_to_use := define_table_to_use filters_dimensions }

/-- `Report_BQ.define_estimate_cost`: `if not value:
self.estimate_cost = False` — a truthy argument leaves the flag as it
is, so the flag can only ever go from `True` to `False`. -/
def define_estimate_cost (r : Report_BQ) (value : Bool) : Report_BQ :=
  if !value then { r with estimate_cost := false } else r

/-- `calculate_gbq_cost`: price the dry-run byte count at $5 per TiB and
round to 4 decimals. -/
def calculate_gbq_cost (totalBytesProcessed : Nat) : Rat :=
  round4 ((totalBytesProcessed : Rat) / 1024 ^ 4 * 5)

/-- Outcome of an analytic method on the BigQuery engine: a monetary
cost estimate, or the executed query's data. -/
inductive BQResult (ρ : Type) where
  | estimate (cost : Rat) : BQResult ρ
  | data (rows : ρ) : BQResult ρ
deriving DecidableEq

/-- The cost gate that the analytic methods of `Report_BQ` contain:
`if self.estimate_cost: return calculate_gbq_cost(sql, self.client)
else: return pandas_gbq.read_gbq(sql)` after compiling their SQL.
`dryRunBytes` abstracts the dry-run round-trip, `runQuery` the real
execution.  Not every method actually reaches its gate:
`find_ctr_outliers` crashes before it on the default path and
`keyword_gap` always crashes before it — see their definitions
below. -/
def runGated (r : Report_BQ) (sql : String) (dryRunBytes : String → Nat)
    (runQuery : String → ρ) : BQResult ρ :=
  if r.estimate_cost then .estimate (calculate_gbq_cost (dryRunBytes sql))
  else .data (runQuery sql)

/-- The SQL text compiled by `Report_BQ.ctr_yield_curve` (whitespace
normalised to single spaces). -/
def ctr_yield_curve_sql (r : Report_BQ) : String :=
  let ds := r.dataset
  let sd := r.startDate
  let ed := r.endDate
  let f := r.filters
  "WITH raw_data AS ( SELECT CAST(ROUND((sum_position/impressions)+1) as string) as position, " ++
  "SUM(clicks) as clicks, SUM(impressions) as impressions, COUNT(query) as kw_count " ++
  "FROM \x60" ++ ds ++ ".searchdata_url_impression\x60 " ++
  "WHERE data_date BETWEEN \x22" ++ sd ++ "\x22 and \x22" ++ ed ++ "\x22 and query is not null" ++
  f ++ " group by position order by CAST(position as int) asc ) " ++
  "SELECT position, ROUND(100*clicks/impressions,2) as ctr, clicks, impressions, kw_count " ++
  "from raw_data where CAST(position as INT) <=10"

/-- `Report_BQ.ctr_yield_curve`: compile the SQL, then go through the
cost gate. -/
def ctr_yield_curve_bq (r : Report_BQ) (dryRunBytes : String → Nat)
    (runQuery : String → ρ) : BQResult ρ :=
  runGated r (ctr_yield_curve_sql r) dryRunBytes runQuery

/-- The SQL text compiled by `Report_BQ.find_ctr_outliers` (whitespace
normalised to single spaces). -/
def find_ctr_outliers_sql (r : Report_BQ) : String :=
  let ds := r.dataset
  let sd := r.startDate
  let ed := r.endDate
  let f := r.filters
  "WITH raw_data AS ( SELECT query, ROUND((sum_position/impressions)+1) as position, " ++
  "SUM(clicks) as clicks, SUM(impressions) as impressions " ++
  "FROM \x60" ++ ds ++ ".searchdata_url_impression\x60 " ++
  "WHERE data_date BETWEEN \x22" ++ sd ++ "\x22 and \x22" ++ ed ++ "\x22" ++ f ++
  " and query is not null group by query, position ), " ++
  "data_per_query AS ( select query, sum(clicks) as clicks_query, " ++
  "sum(impressions) as impressions_query from raw_data group by query ), " ++
  "weighted_avg_position AS ( select query, " ++
  "ROUND(SUM(position * impressions) / SUM(position)) AS position " ++
  "from raw_data group by query ), " ++
  "ctr_data AS ( select * from weighted_avg_position where position <=10 order by position asc ) " ++
  "select ctr_data.query, CAST(ctr_data.position as string) as position, " ++
  "data_per_query.clicks_query, data_per_query.impressions_query, " ++
  "round(data_per_query.clicks_query/data_per_query.impressions_query, 2) as real_ctr " ++
  "from ctr_data left join data_per_query on data_per_query.query = ctr_data.query"

/-- `Report_BQ.find_ctr_outliers`: its first statement is
`self.ctr_yield_curve().filter(items=['position','ctr'])`.  When cost
estimation is enabled, `ctr_yield_curve()` returns the float cost, and
`.filter` on a float raises `AttributeError` — so on the default path
the method crashes instead of returning an estimate.  When estimation
is disabled, `ctr_yield_curve()` returns a DataFrame, the filter
succeeds, and the method compiles its own SQL and goes through its
gate (the `.filter` selection and the post-read pandas merge of the
data path are abstracted into `runQuery`). -/
def find_ctr_outliers (r : Report_BQ) (dryRunBytes : String → Nat)
    (runQuery : String → ρ) : Except String (BQResult ρ) :=
  match ctr_yield_curve_bq r dryRunBytes runQuery with
  | .estimate _ =>
    .error "AttributeError: \x27float\x27 object has no attribute \x27filter\x27"
  | .data _ => .ok (runGated r (find_ctr_outliers_sql r) dryRunBytes runQuery)

/-- `Report_BQ.keyword_gap`: after validating the caller's DataFrame
(modelled by its column list; a non-DataFrame argument raises a
`ValueError` before this point) and the keyword column, it tests
`'query' not in self.dimensions` — but `Report_BQ.__init__` never sets
a `dimensions` attribute, so the test itself raises `AttributeError`
on every call and the SQL/gate code below it is unreachable: the
method never returns a cost estimate or data. -/
def keyword_gap (r : Report_BQ) (dfCols : List String) (keyword_column : String)
    (dryRunBytes : String → Nat) (runQuery : String → ρ) :
    Except String (BQResult ρ) :=
  if keyword_column ∉ dfCols then
    .error (keyword_column ++ " is not a column in the DataFrame")
  else
    .error "AttributeError: \x27Report_BQ\x27 object has no attribute \x27dimensions\x27"

/-- Whether an analytic-method outcome is a cost estimate. -/
def isEstimateOutcome : Except String (BQResult ρ) → Bool
  | .ok (.estimate _) => true
  | _ => false

/-- Whether an analytic-method outcome is executed data. -/
def isDataOutcome : Except String (BQResult ρ) → Bool
  | .ok (.data _) => true
  | _ => false

/-- A sequence of `define_estimate_cost` calls applied in order. -/
def applyEstimateCalls (r : Report_BQ) (calls : List Bool) : Report_BQ :=
  calls.foldl define_estimate_cost r

/-! # Theorems -/

theorem roundHalfEven_le (q : Rat) : (roundHalfEven q : Rat) ≤ q + 1/2 := by
  have h1 := Int.floor_le q
  have h2 := Int.lt_floor_add_one q
  unfold roundHalfEven
  split_ifs <;> push_cast <;> linarith

theorem le_roundHalfEven (q : Rat) : q - 1/2 ≤ (roundHalfEven q : Rat) := by
  have h1 := Int.floor_le q
  have h2 := Int.lt_floor_add_one q
  unfold roundHalfEven
  split_ifs <;> push_cast <;> linarith

theorem roundHalfEven_nonneg {q : Rat} (h : 0 ≤ q) : 0 ≤ roundHalfEven q := by
  by_contra h'
  push_neg at h'
  have hle : roundHalfEven q ≤ -1 := by omega
  have hc : (roundHalfEven q : Rat) ≤ -1 := by exact_mod_cast hle
  have := le_roundHalfEven q
  linarith

theorem roundHalfEven_le_of_le {q c : Rat} {n : Int} (h : q ≤ c)
    (hn : c + 1/2 < (n : Rat)) : roundHalfEven q < n := by
  by_contra h'
  push_neg at h'
  have hc : (n : Rat) ≤ (roundHalfEven q : Rat) := by exact_mod_cast h'
  have := roundHalfEven_le q
  linarith

theorem round2_nonneg {q : Rat} (h : 0 ≤ q) : 0 ≤ round2 q := by
  have : 0 ≤ roundHalfEven (q * 100) := roundHalfEven_nonneg (by linarith)
  have hc : (0 : Rat) ≤ (roundHalfEven (q * 100) : Rat) := by exact_mod_cast this
  unfold round2
  positivity

theorem round2_le_100 {q : Rat} (h : q ≤ 100) : round2 q ≤ 100 := by
  have hlt : roundHalfEven (q * 100) < 10001 := by
    apply roundHalfEven_le_of_le (c := (10000 : Rat)) (by linarith)
    norm_num
  have hle : roundHalfEven (q * 100) ≤ 10000 := by omega
  have hc : (roundHalfEven (q * 100) : Rat) ≤ 10000 := by exact_mod_cast hle
  unfold round2
  linarith

theorem getLoop_spec {α : Type _} (limit : Option Nat) (pages : List (List α)) :
    ∀ (startRow total : Nat) (cs : List (List α)) (evs : List PageEvent),
      getLoop limit pages startRow total = some (cs, evs) →
      cs ≠ [] ∧
      (∀ i, i + 1 < cs.length →
        PAGE_SIZE ≤ (cs.getD i []).length ∧
        limitReached limit (total + sumLen (cs.take (i + 1))) = false) ∧
      ((cs.getLastD []).length < PAGE_SIZE ∨
        limitReached limit (total + sumLen cs) = true) := by
  induction pages with
  | nil => intro startRow total cs evs h; simp [getLoop] at h
  | cons chunk rest ih =>
    intro startRow total cs evs h
    simp only [getLoop] at h
    by_cases hstop : chunk.length < PAGE_SIZE || limitReached limit (total + chunk.length)
    · rw [if_pos hstop] at h
      obtain ⟨hcs, _⟩ := Prod.mk.injEq .. ▸ (Option.some.injEq .. ▸ h)
      subst hcs
      refine ⟨by simp, ?_, ?_⟩
      · intro i hi; simp at hi
      · have : sumLen [chunk] = chunk.length := by simp [sumLen]
        rw [Bool.or_eq_true] at hstop
        rcases hstop with h1 | h2
        · left; simpa using of_decide_eq_true h1
        · right; simpa [this] using h2
    · rw [if_neg hstop] at h
      rw [Bool.or_eq_true, not_or] at hstop
      obtain ⟨hfull, hlim⟩ := hstop
      have hfull' : PAGE_SIZE ≤ chunk.length := by
        by_contra hc
        exact hfull (by simpa using Nat.lt_of_not_le hc)
      have hlim' : limitReached limit (total + chunk.length) = false := by
        simpa using hlim
      cases hrec : getLoop limit rest (startRow + PAGE_SIZE) (total + chunk.length) with
      | none => rw [hrec] at h; simp at h
      | some p =>
        rw [hrec] at h
        obtain ⟨cs', es'⟩ := p
        simp only [Option.some.injEq, Prod.mk.injEq] at h
        obtain ⟨hcs, _⟩ := h
        subst hcs
        obtain ⟨hne, hmid, hlast⟩ := ih _ _ _ _ hrec
        refine ⟨by simp, ?_, ?_⟩
        · intro i hi
          cases i with
          | zero =>
            constructor
            · simpa using hfull'
            · simpa [sumLen] using hlim'
          | succ j =>
            have hj : j + 1 < cs'.length := by simpa using hi
            obtain ⟨h1, h2⟩ := hmid j hj
            constructor
            · simpa using h1
            · have : total + sumLen (List.take (j + 1 + 1) (chunk :: cs')) =
                  total + chunk.length + sumLen (List.take (j + 1) cs') := by
                simp [sumLen, List.take_cons]
                ring
              rw [this]
              exact h2
        · rcases cs' with _ | ⟨c2, cs''⟩
          · exact absurd rfl hne
          · have hlast' : (List.getLastD (chunk :: c2 :: cs'') []) =
                (List.getLastD (c2 :: cs'') []) := by
              simp [List.getLastD, List.getLast?_cons_cons]
            rw [hlast']
            have : total + sumLen (chunk :: c2 :: cs'') =
                total + chunk.length + sumLen (c2 :: cs'') := by
              simp [sumLen]; ring
            rw [this]
            exact hlast

/-- C1: a REST pagination run stops exactly at the first page that is
shorter than 25,000 rows or that makes the accumulated row count reach
the caller's limit: every page consumed before the last one was full and
left the accumulated count below the limit, the last page is short or
reaches the limit, and with no limit set only the short-page condition
can end the loop. -/
theorem getLoop_stops_iff_short_page_or_limit {α : Type _} (limit : Option Nat)
    (pages cs : List (List α)) (evs : List PageEvent)
    (h : getLoop limit pages 0 0 = some (cs, evs)) :
    cs ≠ [] ∧
    (∀ i, i + 1 < cs.length →
      PAGE_SIZE ≤ (cs.getD i []).length ∧
      limitReached limit (sumLen (cs.take (i + 1))) = false) ∧
    ((cs.getLastD []).length < PAGE_SIZE ∨
      limitReached limit (sumLen cs) = true) ∧
    (limit = none → (cs.getLastD []).length < PAGE_SIZE) := by
  obtain ⟨hne, hmid, hlast⟩ := getLoop_spec limit pages 0 0 cs evs h
  refine ⟨hne, ?_, ?_, ?_⟩
  · intro i hi
    simpa using hmid i hi
  · simpa using hlast
  · intro hnone
    subst hnone
    rcases hlast with h1 | h2
    · exact h1
    · simp [limitReached] at h2

/-- Witness for C1 at a one-page backend whose single page is empty
(hence shorter than 25,000 rows): the loop consumes exactly that page. -/
theorem getLoop_stops_iff_short_page_or_limit_witness :
    getLoop (α := Nat) none [[]] 0 0 =
      some ([[]], [PageEvent.sleep, PageEvent.request 0]) ∧
    (([[]] : List (List Nat)) ≠ [] ∧
    (∀ i, i + 1 < ([[]] : List (List Nat)).length →
      PAGE_SIZE ≤ (([[]] : List (List Nat)).getD i []).length ∧
      limitReached none (sumLen (([[]] : List (List Nat)).take (i + 1))) = false) ∧
    ((([[]] : List (List Nat)).getLastD []).length < PAGE_SIZE ∨
      limitReached none (sumLen ([[]] : List (List Nat))) = true) ∧
    ((none : Option Nat) = none →
      (([[]] : List (List Nat)).getLastD []).length < PAGE_SIZE)) :=
  ⟨by decide,
   getLoop_stops_iff_short_page_or_limit none [[]] [[]]
     [PageEvent.sleep, PageEvent.request 0] (by decide)⟩

/-- C3 fails on the code: with limit 10 and a first page of 2 rows, the
short-page test (`len < 25000`) ends the loop at once, so the run issues
1 page request and returns 2 rows — not 3 requests and 5 rows as
claimed. -/
theorem get_scenario_2_2_1_counterexample :
    okRows (get (some 10) [[1, 2], [3, 4], [5]]) = [1, 2] ∧
    countRequests (okEvents (get (some 10) [[1, 2], [3, 4], [5]])) = 1 ∧
    ¬((okRows (get (some 10) [[1, 2], [3, 4], [5]])).length = 5 ∧
      countRequests (okEvents (get (some 10) [[1, 2], [3, 4], [5]])) = 3) := by
  decide

/-- C3 (amended): with dimensions/range as in the scenario and limit 10,
against a backend whose three successive pages hold 2, 2 and 1 rows,
`get` stops after the first page (2 < 25,000), issuing exactly one page
request preceded by the rate-limit delay, and returns the 2 rows of that
page. -/
theorem get_scenario_2_2_1_amended {α : Type _} (a b c d e : α) :
    get (some 10) [[a, b], [c, d], [e]] =
      some (.ok ([a, b], [PageEvent.sleep, PageEvent.request 0])) := rfl

/-- C8: a REST run whose backend requests all succeeded raises the
empty-result `ValueError` exactly when zero rows were returned across
all pages; a run that returned at least one row instead yields the
accumulated rows truncated to the limit. -/
theorem get_raises_iff_zero_rows {α : Type _} (limit : Option Nat)
    (pages cs : List (List α)) (evs : List PageEvent)
    (h : getLoop limit pages 0 0 = some (cs, evs)) :
    (isError (get limit pages) = true ↔ cs.flatten = []) ∧
    (cs.flatten ≠ [] →
      get limit pages = some (.ok (applyLimit limit cs.flatten, evs))) := by
  have key : get limit pages =
      if cs.flatten.length = 0 then
        some (.error "No data available. Check your request and ensure you\x27re using the right dates and filters.")
      else some (.ok (applyLimit limit cs.flatten, evs)) := by
    unfold get
    rw [h]
  constructor
  · rw [key]
    by_cases hz : cs.flatten.length = 0
    · rw [if_pos hz]
      simp [isError, List.length_eq_zero.mp hz]
    · rw [if_neg hz]
      simp only [isError]
      constructor
      · intro hfalse
        cases hfalse
      · intro hflat
        exact absurd (by rw [hflat]; rfl) hz
  · intro hne
    have hlen : cs.flatten.length ≠ 0 := fun hz => hne (List.length_eq_zero.mp hz)
    rw [key, if_neg hlen]

/-- Witness for C8 at a run that returned zero rows (one empty page):
the run is an error. -/
theorem get_raises_iff_zero_rows_witness :
    getLoop (α := Nat) none [[]] 0 0 =
      some ([[]], [PageEvent.sleep, PageEvent.request 0]) ∧
    ((isError (get (α := Nat) none [[]]) = true ↔
        ([[]] : List (List Nat)).flatten = []) ∧
      (([[]] : List (List Nat)).flatten ≠ [] →
        get none [[]] = some (.ok (applyLimit none ([[]] : List (List Nat)).flatten,
          [PageEvent.sleep, PageEvent.request 0])))) :=
  ⟨by decide,
   get_raises_iff_zero_rows none [[]] [[]]
     [PageEvent.sleep, PageEvent.request 0] (by decide)⟩

/-- C2 fails on the code: on a freshly constructed warehouse report
(estimation enabled by default), `find_ctr_outliers` raises
`AttributeError` — its first statement calls `.filter` on the float
cost that the gated `ctr_yield_curve` returns — and `keyword_gap`
raises `AttributeError` on the missing `self.dimensions` attribute, so
neither of these analytic methods returns a cost estimate. -/
theorem cost_gate_not_universal_counterexample :
    find_ctr_outliers (mkReport_BQ "d" "2024-01-01" "2024-01-31" "" [])
        (fun _ => 0) (fun _ => ())
      = .error "AttributeError: \x27float\x27 object has no attribute \x27filter\x27" ∧
    keyword_gap (mkReport_BQ "d" "2024-01-01" "2024-01-31" "" []) ["kw"] "kw"
        (fun _ => 0) (fun _ => ())
      = .error "AttributeError: \x27Report_BQ\x27 object has no attribute \x27dimensions\x27" ∧
    isEstimateOutcome (find_ctr_outliers
        (mkReport_BQ "d" "2024-01-01" "2024-01-31" "" [])
        (fun _ => 0) (fun _ => ())) = false ∧
    isEstimateOutcome (keyword_gap
        (mkReport_BQ "d" "2024-01-01" "2024-01-31" "" []) ["kw"] "kw"
        (fun _ => 0) (fun _ => ())) = false := by
  decide

/-- C2 (amended): by default every analytic method that reaches its
cost gate returns the dry-run cost estimate instead of data
(`ctr_yield_curve` shown explicitly), and a gate returns data exactly
when the flag has been set to false, which only an explicit
`define_estimate_cost` call with a falsy argument does.  Two methods
never return an estimate: `find_ctr_outliers` raises `AttributeError`
on the default path (`.filter` on the float cost of the gated
`ctr_yield_curve`) and returns data once estimation is disabled, and
`keyword_gap` always raises, returning neither estimate nor data. -/
theorem cost_gate_default_estimates {ρ : Type}
    (dataset startDate endDate filters sql keyword_column : String)
    (filters_dimensions dfCols : List String)
    (dryRunBytes : String → Nat) (runQuery : String → ρ) :
    (runGated (mkReport_BQ dataset startDate endDate filters filters_dimensions)
        sql dryRunBytes runQuery
      = .estimate (calculate_gbq_cost (dryRunBytes sql))) ∧
    (ctr_yield_curve_bq (mkReport_BQ dataset startDate endDate filters filters_dimensions)
        dryRunBytes runQuery
      = .estimate (calculate_gbq_cost (dryRunBytes
          (ctr_yield_curve_sql (mkReport_BQ dataset startDate endDate filters filters_dimensions))))) ∧
    (∀ r : Report_BQ,
      (runGated r sql dryRunBytes runQuery = .data (runQuery sql) ↔
        r.estimate_cost = false) ∧
      (runGated r sql dryRunBytes runQuery
          = .estimate (calculate_gbq_cost (dryRunBytes sql)) ↔
        r.estimate_cost = true)) ∧
    ((define_estimate_cost
        (mkReport_BQ dataset startDate endDate filters filters_dimensions)
        false).estimate_cost = false) ∧
    (find_ctr_outliers (mkReport_BQ dataset startDate endDate filters filters_dimensions)
        dryRunBytes runQuery
      = .error "AttributeError: \x27float\x27 object has no attribute \x27filter\x27") ∧
    (∀ r : Report_BQ, r.estimate_cost = false →
      find_ctr_outliers r dryRunBytes runQuery
        = .ok (.data (runQuery (find_ctr_outliers_sql r)))) ∧
    (∀ r : Report_BQ,
      isEstimateOutcome (keyword_gap r dfCols keyword_column dryRunBytes runQuery) = false ∧
      isDataOutcome (keyword_gap r dfCols keyword_column dryRunBytes runQuery) = false) := by
  refine ⟨rfl, rfl, ?_, rfl, rfl, ?_, ?_⟩
  · intro r
    unfold runGated
    cases hr : r.estimate_cost <;> simp [hr]
  · intro r hr
    simp [find_ctr_outliers, ctr_yield_curve_bq, runGated, hr]
  · intro r
    unfold keyword_gap isEstimateOutcome isDataOutcome
    split_ifs <;> exact ⟨rfl, rfl⟩

/-- Witness for C2 (amended): once `define_estimate_cost(False)` has
disabled estimation, `find_ctr_outliers` reaches its gate and returns
data. -/
theorem cost_gate_default_estimates_witness :
    ((define_estimate_cost (mkReport_BQ "d" "2024-01-01" "2024-01-31" "" [])
        false).estimate_cost = false) ∧
    (find_ctr_outliers (ρ := Unit)
        (define_estimate_cost (mkReport_BQ "d" "2024-01-01" "2024-01-31" "" []) false)
        (fun _ => 0) (fun _ => ())
      = .ok (.data ())) :=
  ⟨rfl,
   (cost_gate_default_estimates (ρ := Unit) "d" "2024-01-01" "2024-01-31" "" "sql"
       "kw" [] ["kw"] (fun _ => 0) (fun _ => ())).2.2.2.2.2.1
     (define_estimate_cost (mkReport_BQ "d" "2024-01-01" "2024-01-31" "" []) false)
     rfl⟩

/-- C4: `define_table_to_use` (run once by `Report_BQ.__init__`) picks
the site-level table exactly when every dimension recorded by the
accumulated `Query_BQ.filter` calls belongs to the site-level
vocabulary; any recorded URL-only dimension forces the URL-level table;
and every successful `filter` call records exactly its dimension. -/
theorem define_table_to_use_spec (filters_dimensions : List String)
    (dataset startDate endDate filters : String) :
    ((mkReport_BQ dataset startDate endDate filters filters_dimensions).table_to_use
      = define_table_to_use filters_dimensions) ∧
    (define_table_to_use filters_dimensions = "searchdata_site_impression" ↔
      ∀ d ∈ filters_dimensions, d ∈ DIMENSIONS_SITE) ∧
    (∀ d ∈ filters_dimensions, d ∈ DIMENSIONS_URL → d ∉ DIMENSIONS_SITE →
      define_table_to_use filters_dimensions = "searchdata_url_impression") ∧
    (∀ (q q' : Query_BQ) (d e o : String),
      Query_BQ.filter q d e o = .ok q' →
      q'.filters_dimensions = q.filters_dimensions ++ [d]) := by
  refine ⟨rfl, ?_, ?_, ?_⟩
  · unfold define_table_to_use
    split_ifs with hall
    · exact iff_of_true rfl hall
    · constructor
      · intro hfalse
        exact absurd hfalse (by decide)
      · intro hforall
        exact absurd hforall hall
  · intro d hd _ hnotsite
    unfold define_table_to_use
    rw [if_neg]
    intro hall
    exact hnotsite (hall d hd)
  · intro q q' d e o hok
    unfold Query_BQ.filter at hok
    split_ifs at hok <;> cases hok <;> rfl

/-- Witness for C4: a filter on the URL-only dimension `url` forces the
URL-level table, while filters on `query`/`country` alone keep the
site-level table. -/
theorem define_table_to_use_spec_witness :
    define_table_to_use ["url"] = "searchdata_url_impression" ∧
    define_table_to_use ["query", "country"] = "searchdata_site_impression" :=
  ⟨(define_table_to_use_spec ["url"] "" "" "" "").2.2.1 "url" (by decide)
     (by decide) (by decide),
   (define_table_to_use_spec ["query", "country"] "" "" "" "").2.1.mpr (by decide)⟩

/-- C10: the cost-estimation flag is monotone — a run of
`define_estimate_cost` calls leaves it enabled only if it was enabled
and no call passed a falsy value; in particular a call with `True`
after a call with `False` leaves estimation disabled. -/
theorem define_estimate_cost_monotone (r : Report_BQ) (calls : List Bool) :
    ((applyEstimateCalls r calls).estimate_cost
      = (r.estimate_cost && calls.all id)) ∧
    ((define_estimate_cost (define_estimate_cost r false) true).estimate_cost
      = false) := by
  constructor
  · induction calls generalizing r with
    | nil => simp [applyEstimateCalls]
    | cons c cs ih =>
      have hstep : applyEstimateCalls r (c :: cs)
          = applyEstimateCalls (define_estimate_cost r c) cs := rfl
      rw [hstep, ih]
      cases c <;> simp [define_estimate_cost]
  · rfl

/-- C7 fails on the code: the chronological-order validation of
`winners_losers` compares `period_from[1]` (resp. `period_to[1]`) with
itself, so an out-of-order range such as
`["2024-03-10","2024-03-01"]` passes every check and the method computes
a result instead of raising — the check's own error message shows the
intended behaviour.  The overlap check, by contrast, does fire on the
spec's example. -/
theorem winners_losers_order_check_never_fires :
    winners_losers_checks ["2024-03-10", "2024-03-01"]
        ["2024-03-15", "2024-03-20"] 20240301 20240320 = .ok () ∧
    winners_losers_checks ["2024-01-01", "2024-01-31"]
        ["2024-01-15", "2024-02-15"] 20240101 20240215
      = .error "Periods must not overlap." := by
  decide

/-- C9 fails on the code: `url_to_df` assigns the expanded DataFrame to
`self.df` and returns `self`, so the Report it is called on is mutated
in place — after the call the object no longer equals its original
value. -/
theorem report_url_to_df_mutates_counterexample :
    selfAfterUrlToDf
        (mkReport ⟨["page", "clicks"], [[some "https://ex.com/a/b", some "3"]]⟩
          "sc-domain:ex.com") ≠
      some (mkReport ⟨["page", "clicks"], [[some "https://ex.com/a/b", some "3"]]⟩
          "sc-domain:ex.com") ∧
    (selfAfterUrlToDf
        (mkReport ⟨["page", "clicks"], [[some "https://ex.com/a/b", some "3"]]⟩
          "sc-domain:ex.com")).isSome = true := by
  decide

/-- C9 (amended): `filter` and `update_urls` build their result on a
deep copy and leave the original Report — its table, classification and
date span — unchanged; `url_to_df` instead updates `self.df` in place
and returns the same mutated object, so it is the one analytics
operation without copy-on-write semantics. -/
theorem report_transforms_state_spec (r : Report)
    (pred : List (Option String) → Bool) (mapping : List (String × String)) :
    ((Report.filter r pred).2 = r) ∧
    (selfAfterUpdateUrls r mapping
      = if "page" ∈ r.dimensions then some r else none) ∧
    (selfAfterUrlToDf r = returnedUrlToDf r) := by
  refine ⟨rfl, ?_, ?_⟩
  · unfold selfAfterUpdateUrls Report.update_urls
    split_ifs <;> rfl
  · unfold selfAfterUrlToDf returnedUrlToDf Report.url_to_df
    split_ifs <;> rfl

theorem positionBucket_ge_one {r : CtrRow} (h : 1 ≤ r.position) :
    1 ≤ positionBucket r := by
  unfold positionBucket
  by_contra h'
  push_neg at h'
  have hle : roundHalfEven r.position ≤ 0 := by omega
  have hc : ((roundHalfEven r.position : Int) : Rat) ≤ 0 := by exact_mod_cast hle
  have := le_roundHalfEven r.position
  linarith

theorem mem_sortedBuckets {rows : List CtrRow} {k : Int}
    (h : k ∈ sortedBuckets rows) : ∃ r ∈ rows, positionBucket r = k := by
  unfold sortedBuckets at h
  have h1 : k ∈ (rows.map positionBucket).dedup :=
    (List.perm_insertionSort _ _).mem_iff.mp h
  have h2 : k ∈ rows.map positionBucket := List.mem_dedup.mp h1
  simpa using h2

/-- C5: on a report carrying the query/date dimensions and the
clicks/impressions/position metrics (GSC positions are at least 1 and
every stored row has at least one impression), `ctr_yield_curve` keeps
only the rounded positions 1..10, reports per bucket the summed clicks,
summed impressions and row (query) count with
`ctr = round(100*clicks/impressions, 2)`, and its output is fully
determined by the per-position (clicks, impressions, kw_count)
totals. -/
theorem ctr_yield_curve_spec (rows : List CtrRow)
    (hpos : ∀ r ∈ rows, 1 ≤ r.position)
    (himp : ∀ r ∈ rows, 1 ≤ r.impressions) :
    (∀ o ∈ ctr_yield_curve rows,
      1 ≤ o.position ∧ o.position ≤ 10 ∧
      o.ctr = round2 ((o.clicks : Rat) * 100 / (o.impressions : Rat)) ∧
      o.clicks = groupClicks rows o.position ∧
      o.impressions = groupImpressions rows o.position ∧
      o.kw_count = groupCount rows o.position ∧
      1 ≤ o.impressions) ∧
    (∀ rows' : List CtrRow, perPosTotals rows = perPosTotals rows' →
      ctr_yield_curve rows = ctr_yield_curve rows') := by
  constructor
  · intro o ho
    unfold ctr_yield_curve at ho
    obtain ⟨t, ht, rfl⟩ := List.mem_map.mp ho
    obtain ⟨htmem, htle⟩ := List.mem_filter.mp ht
    unfold perPosTotals at htmem
    obtain ⟨k, hk, rfl⟩ := List.mem_map.mp htmem
    obtain ⟨r, hr, hrk⟩ := mem_sortedBuckets hk
    have h1 : 1 ≤ k := hrk ▸ positionBucket_ge_one (hpos r hr)
    refine ⟨h1, by simpa using htle, rfl, rfl, rfl, rfl, ?_⟩
    have hrmem : r ∈ rows.filter (fun x => positionBucket x = k) :=
      List.mem_filter.mpr ⟨hr, by simp [hrk]⟩
    have himpr : r.impressions ∈
        (rows.filter (fun x => positionBucket x = k)).map CtrRow.impressions :=
      List.mem_map_of_mem _ hrmem
    calc 1 ≤ r.impressions := himp r hr
      _ ≤ _ := List.single_le_sum (fun _ _ => Nat.zero_le _) _ himpr
  · intro rows' h
    unfold ctr_yield_curve
    rw [h]

/-- Witness for C5 at a one-row report (3 clicks, 10 impressions,
position 2). -/
theorem ctr_yield_curve_spec_witness :
    ((∀ r ∈ [CtrRow.mk "kw" 3 10 2], 1 ≤ r.position) ∧
     (∀ r ∈ [CtrRow.mk "kw" 3 10 2], 1 ≤ r.impressions)) ∧
    ((∀ o ∈ ctr_yield_curve [CtrRow.mk "kw" 3 10 2],
      1 ≤ o.position ∧ o.position ≤ 10 ∧
      o.ctr = round2 ((o.clicks : Rat) * 100 / (o.impressions : Rat)) ∧
      o.clicks = groupClicks [CtrRow.mk "kw" 3 10 2] o.position ∧
      o.impressions = groupImpressions [CtrRow.mk "kw" 3 10 2] o.position ∧
      o.kw_count = groupCount [CtrRow.mk "kw" 3 10 2] o.position ∧
      1 ≤ o.impressions) ∧
    (∀ rows' : List CtrRow,
      perPosTotals [CtrRow.mk "kw" 3 10 2] = perPosTotals rows' →
      ctr_yield_curve [CtrRow.mk "kw" 3 10 2] = ctr_yield_curve rows')) :=
  ⟨⟨by decide, by decide⟩, ctr_yield_curve_spec _ (by decide) (by decide)⟩

theorem psums_length (acc : Rat) (l : List Rat) :
    (psums acc l).length = l.length := by
  induction l generalizing acc with
  | nil => rfl
  | cons v vs ih => simp [psums, ih]

theorem psums_bounds : ∀ (vals : List Rat), (∀ v ∈ vals, 0 ≤ v) →
    ∀ (acc p : Rat), p ∈ psums acc vals → acc ≤ p ∧ p ≤ acc + vals.sum := by
  intro vals
  induction vals with
  | nil => intro _ acc p hp; simp [psums] at hp
  | cons v vs ih =>
    intro hnn acc p hp
    have hv : 0 ≤ v := hnn v (by simp)
    have hvs : ∀ x ∈ vs, 0 ≤ x := fun x hx => hnn x (by simp [hx])
    have hsum : 0 ≤ vs.sum := List.sum_nonneg hvs
    simp only [psums, List.mem_cons] at hp
    rcases hp with rfl | hp
    · constructor
      · linarith
      · rw [List.sum_cons]; linarith
    · obtain ⟨h1, h2⟩ := ih hvs (acc + v) p hp
      constructor
      · linarith
      · rw [List.sum_cons]; linarith

theorem metric_cumsum_length (vals : List Rat) :
    (metric_cumsum vals).length = vals.length := by
  unfold metric_cumsum
  split_ifs <;> simp [psums_length]

theorem metric_cumsum_mem {vals : List Rat} (hnn : ∀ v ∈ vals, 0 ≤ v)
    (hs : vals.sum ≠ 0) : ∀ oc ∈ metric_cumsum vals,
    ∃ c, oc = some c ∧ 0 ≤ c ∧ c ≤ 100 := by
  intro oc hoc
  unfold metric_cumsum at hoc
  rw [if_neg hs] at hoc
  obtain ⟨p, hp, rfl⟩ := List.mem_map.mp hoc
  obtain ⟨h0, h1⟩ := psums_bounds vals hnn 0 p hp
  have htot : 0 < vals.sum := lt_of_le_of_ne (List.sum_nonneg hnn) (Ne.symm hs)
  have hpct0 : 0 ≤ 100 * p / vals.sum :=
    div_nonneg (by linarith) (le_of_lt htot)
  have hpct1 : 100 * p / vals.sum ≤ 100 := by
    rw [div_le_iff₀ htot]
    linarith
  exact ⟨_, rfl, round2_nonneg hpct0, round2_le_100 hpct1⟩

theorem abcdLabel_covers {c : Rat} (h0 : 0 ≤ c) (h1 : c ≤ 100) :
    abcdLabel c = some "A" ∨ abcdLabel c = some "B" ∨
    abcdLabel c = some "C" ∨ abcdLabel c = some "D" := by
  unfold abcdLabel
  split_ifs with hA hB hC hD
  · exact Or.inl rfl
  · exact Or.inr (Or.inl rfl)
  · exact Or.inr (Or.inr (Or.inl rfl))
  · exact Or.inr (Or.inr (Or.inr rfl))
  · exfalso
    have h50 : 50 ≤ c := by
      by_contra hlt; push_neg at hlt; exact hA ⟨h0, hlt⟩
    have h75 : 75 ≤ c := by
      by_contra hlt; push_neg at hlt; exact hB ⟨h50, hlt⟩
    have h90 : 90 ≤ c := by
      by_contra hlt; push_neg at hlt; exact hC ⟨h75, hlt⟩
    exact hD ⟨h90, h1⟩

theorem abcdLabel_band_iff (c : Rat) :
    (abcdLabel c = some "A" ↔ 0 ≤ c ∧ c < 50) ∧
    (abcdLabel c = some "B" ↔ 50 ≤ c ∧ c < 75) ∧
    (abcdLabel c = some "C" ↔ 75 ≤ c ∧ c < 90) ∧
    (abcdLabel c = some "D" ↔ 90 ≤ c ∧ c ≤ 100) := by
  unfold abcdLabel
  split_ifs with hA hB hC hD
  · exact ⟨iff_of_true rfl hA,
      iff_of_false (by decide) (fun h => by linarith [hA.2, h.1]),
      iff_of_false (by decide) (fun h => by linarith [hA.2, h.1]),
      iff_of_false (by decide) (fun h => by linarith [hA.2, h.1])⟩
  · exact ⟨iff_of_false (by decide) (fun h => by linarith [hB.1, h.2]),
      iff_of_true rfl hB,
      iff_of_false (by decide) (fun h => by linarith [hB.2, h.1]),
      iff_of_false (by decide) (fun h => by linarith [hB.2, h.1])⟩
  · exact ⟨iff_of_false (by decide) (fun h => by linarith [hC.1, h.2]),
      iff_of_false (by decide) (fun h => by linarith [hC.1, h.2]),
      iff_of_true rfl hC,
      iff_of_false (by decide) (fun h => by linarith [hC.2, h.1])⟩
  · exact ⟨iff_of_false (by decide) (fun h => by linarith [hD.1, h.2]),
      iff_of_false (by decide) (fun h => by linarith [hD.1, h.2]),
      iff_of_false (by decide) (fun h => by linarith [hD.1, h.2]),
      iff_of_true rfl hD⟩
  · exact ⟨iff_of_false (by decide) hA, iff_of_false (by decide) hB,
      iff_of_false (by decide) hC, iff_of_false (by decide) hD⟩

/-- C6 fails on the code when the metric total is 0: the cumulative
percentage is then NaN (0/0 in pandas), no `between` condition matches,
and the row keeps the NaN cell instead of receiving a band label. -/
theorem abcd_zero_total_counterexample :
    abcd [("a", 0)] = [("a", 0, none)] ∧
    ¬(∀ t ∈ abcd [("a", (0 : Rat))],
      t.2.2 = some "A" ∨ t.2.2 = some "B" ∨
      t.2.2 = some "C" ∨ t.2.2 = some "D") := by
  have h1 : abcd [("a", (0 : Rat))] = [("a", 0, none)] := by
    simp [abcd, metric_cumsum, psums, List.insertionSort, List.orderedInsert]
  refine ⟨h1, ?_⟩
  intro hall
  have := hall ("a", 0, none) (by rw [h1]; exact List.mem_singleton_self _)
  rcases this with h | h | h | h <;> simp at h

/-- C6 (amended): for nonnegative metric values with a nonzero total,
`abcd` returns the input rows sorted descending by the metric (a
permutation of the input), assigns every row exactly one of the four
band labels, the label column is exactly the banded rounded cumulative
percentage of the sorted rows, and the bands A [0,50), B [50,75),
C [75,90), D [90,100] are disjoint, ordered and together cover
[0,100]; when the metric total is zero the cumulative-percentage cells
are NaN and no row receives a band label. -/
theorem abcd_spec (rows : List (String × Rat))
    (hnn : ∀ p ∈ rows, 0 ≤ p.2)
    (hs : (rows.map Prod.snd).sum ≠ 0) :
    ((abcd rows).map (fun t => (t.1, t.2.1))).Perm rows ∧
    List.Sorted metricGE ((abcd rows).map (fun t => (t.1, t.2.1))) ∧
    ((abcd rows).map (fun t => t.2.2)
      = (metric_cumsum ((rows.insertionSort metricGE).map Prod.snd)).map
          (fun oc => oc.bind abcdLabel)) ∧
    (∀ t ∈ abcd rows,
      t.2.2 = some "A" ∨ t.2.2 = some "B" ∨
      t.2.2 = some "C" ∨ t.2.2 = some "D") ∧
    (∀ c : Rat, 0 ≤ c → c ≤ 100 →
      (abcdLabel c = some "A" ∨ abcdLabel c = some "B" ∨
       abcdLabel c = some "C" ∨ abcdLabel c = some "D")) ∧
    (∀ c : Rat,
      (abcdLabel c = some "A" ↔ 0 ≤ c ∧ c < 50) ∧
      (abcdLabel c = some "B" ↔ 50 ≤ c ∧ c < 75) ∧
      (abcdLabel c = some "C" ↔ 75 ≤ c ∧ c < 90) ∧
      (abcdLabel c = some "D" ↔ 90 ≤ c ∧ c ≤ 100)) := by
  have hlab : ((metric_cumsum ((rows.insertionSort metricGE).map Prod.snd)).map
      (fun oc => oc.bind abcdLabel)).length = (rows.insertionSort metricGE).length := by
    rw [List.length_map, metric_cumsum_length, List.length_map]
  have hstrip : (abcd rows).map (fun t => (t.1, t.2.1)) = rows.insertionSort metricGE := by
    unfold abcd
    rw [List.map_map]
    have hfst : ((fun t : String × Rat × Option String => (t.1, t.2.1)) ∘
        (fun pl : (String × Rat) × Option String => (pl.1.1, pl.1.2, pl.2))) =
        Prod.fst := rfl
    rw [hfst]
    exact List.map_fst_zip _ _ (le_of_eq hlab.symm)
  have hlabels : (abcd rows).map (fun t => t.2.2)
      = (metric_cumsum ((rows.insertionSort metricGE).map Prod.snd)).map
          (fun oc => oc.bind abcdLabel) := by
    unfold abcd
    rw [List.map_map]
    have hsnd : ((fun t : String × Rat × Option String => t.2.2) ∘
        (fun pl : (String × Rat) × Option String => (pl.1.1, pl.1.2, pl.2))) =
        Prod.snd := rfl
    rw [hsnd]
    exact List.map_snd_zip _ _ (le_of_eq hlab)
  refine ⟨hstrip ▸ List.perm_insertionSort metricGE rows,
    hstrip ▸ List.sorted_insertionSort metricGE rows, hlabels, ?_,
    fun c h0 h1 => abcdLabel_covers h0 h1, fun c => abcdLabel_band_iff c⟩
  intro t ht
  unfold abcd at ht
  obtain ⟨pl, hpl, rfl⟩ := List.mem_map.mp ht
  have h2 : pl.2 ∈ (metric_cumsum ((rows.insertionSort metricGE).map Prod.snd)).map
      (fun oc => oc.bind abcdLabel) := by
    have := List.of_mem_zip (by exact hpl)
    exact this.2
  obtain ⟨oc, hoc, hbind⟩ := List.mem_map.mp h2
  have hnn' : ∀ v ∈ (rows.insertionSort metricGE).map Prod.snd, 0 ≤ v := by
    intro v hv
    obtain ⟨p, hp, rfl⟩ := List.mem_map.mp hv
    exact hnn p ((List.perm_insertionSort metricGE rows).mem_iff.mp hp)
  have hsum' : ((rows.insertionSort metricGE).map Prod.snd).sum ≠ 0 := by
    rw [((List.perm_insertionSort metricGE rows).map Prod.snd).sum_eq]
    exact hs
  obtain ⟨c, rfl, h0, h1⟩ := metric_cumsum_mem hnn' hsum' oc hoc
  show pl.2 = some "A" ∨ pl.2 = some "B" ∨ pl.2 = some "C" ∨ pl.2 = some "D"
  rw [← hbind]
  simpa using abcdLabel_covers h0 h1

/-- Witness for C6 at rows x:60, y:40 (nonnegative metric, total
100). -/
theorem abcd_spec_witness :
    ((∀ p ∈ [("x", (60 : Rat)), ("y", 40)], 0 ≤ p.2) ∧
     ([("x", (60 : Rat)), ("y", 40)].map Prod.snd).sum ≠ 0) ∧
    (((abcd [("x", (60 : Rat)), ("y", 40)]).map (fun t => (t.1, t.2.1))).Perm
        [("x", (60 : Rat)), ("y", 40)] ∧
    List.Sorted metricGE
      ((abcd [("x", (60 : Rat)), ("y", 40)]).map (fun t => (t.1, t.2.1))) ∧
    ((abcd [("x", (60 : Rat)), ("y", 40)]).map (fun t => t.2.2)
      = (metric_cumsum (([("x", (60 : Rat)), ("y", 40)].insertionSort metricGE).map
          Prod.snd)).map (fun oc => oc.bind abcdLabel)) ∧
    (∀ t ∈ abcd [("x", (60 : Rat)), ("y", 40)],
      t.2.2 = some "A" ∨ t.2.2 = some "B" ∨
      t.2.2 = some "C" ∨ t.2.2 = some "D") ∧
    (∀ c : Rat, 0 ≤ c → c ≤ 100 →
      (abcdLabel c = some "A" ∨ abcdLabel c = some "B" ∨
       abcdLabel c = some "C" ∨ abcdLabel c = some "D")) ∧
    (∀ c : Rat,
      (abcdLabel c = some "A" ↔ 0 ≤ c ∧ c < 50) ∧
      (abcdLabel c = some "B" ↔ 50 ≤ c ∧ c < 75) ∧
      (abcdLabel c = some "C" ↔ 75 ≤ c ∧ c < 90) ∧
      (abcdLabel c = some "D" ↔ 90 ≤ c ∧ c ≤ 100))) :=
  ⟨⟨by decide, by norm_num⟩, abcd_spec _ (by decide) (by norm_num)⟩

end GscWrapper
